import Mathlib

/-!
Verification of nyaggle's `nyaggle/experiment/gbdt.py`: a shallow embedding of
`experiment_gbdt`, `_dispatch_gbdt` and `_save_model`, together with theorems
checking the specification's claims against the embedded code.

Modelling conventions:
* Python strings are Lean `String`s; `dict`s are association lists with
  `List.lookup` semantics for key membership.
* pandas DataFrames are modelled by their observable structure used in this
  module: the list of columns (name and dtype name) and the index name.
* Numeric values (scores, predictions, importance) are modelled as `Rat`.
* Exceptions (`assert`, `raise RuntimeError`, `IndexError`, pandas errors)
  are modelled by `Except String`.
* In-place mutation (`set_index(..., inplace=True)`, dict item assignment) is
  modelled by explicit state passing: the run result records the final state
  of the caller-visible objects.
* External collaborators (`check_cv`, `cross_validate`, `Experiment`,
  `plot_importance`) are out of scope; their outputs are inputs to the
  embedded run (`n_splits`, `cv_result`) and their invocations are recorded
  as effects in an event list.
-/

/-- Model constructors appearing in the dispatch table of `_dispatch_gbdt`. -/
inductive ModelCtor where
  | LGBMClassifier
  | LGBMRegressor
  | CatBoostClassifier
  | CatBoostRegressor
deriving DecidableEq

/-- Evaluation functions: the two table defaults plus caller-supplied ones
(tagged by a number, standing for arbitrary Python callables). -/
inductive EvalFn where
  | roc_auc_score
  | mean_squared_error
  | custom (tag : Nat)
deriving DecidableEq

/-- A value stored in a Python dict such as `fit_params` or `model_params`:
either the injected categorical-feature list or some opaque caller value. -/
inductive PyVal where
  | cats (features : List String)
  | otherVal (tag : Nat)
deriving DecidableEq

/-- A pandas column as observed by this module: its name and `dtype.name`. -/
structure Column where
  name : String
  dtype : String
deriving DecidableEq

/-- A pandas DataFrame as observed by this module: columns and index name. -/
structure DataFrame where
  columns : List Column
  index_name : Option String
deriving DecidableEq

/-- `list(df.columns)`: the list of column names. -/
def DataFrame.columnNames (df : DataFrame) : List String :=
  df.columns.map Column.name

/-- `df.set_index(col, inplace=True)`: the named column moves into the index
(it is removed from the columns and becomes the index name). -/
def DataFrame.set_index (df : DataFrame) (col : String) : DataFrame :=
  { columns := df.columns.filter (fun c => c.name ≠ col), index_name := some col }

/-- The fixed dispatch table `gbdt_table` of `_dispatch_gbdt`:
(target-type tag, backend tag, model constructor, default eval, categorical
parameter name). -/
def gbdt_table : List (String × String × ModelCtor × EvalFn × String) :=
  [ ("binary", "lgbm", ModelCtor.LGBMClassifier, EvalFn.roc_auc_score, "categorical_feature"),
    ("continuous", "lgbm", ModelCtor.LGBMRegressor, EvalFn.mean_squared_error, "categorical_feature"),
    ("binary", "cat", ModelCtor.CatBoostClassifier, EvalFn.roc_auc_score, "cat_features"),
    ("continuous", "cat", ModelCtor.CatBoostRegressor, EvalFn.mean_squared_error, "cat_features") ]

/-- `more_itertools.first_true(iterable, pred=...)`: the first element
satisfying the predicate, or `none` (the default) when there is none. -/
def first_true (l : List α) (pred : α → Bool) : Option α :=
  l.find? pred

/-- The error message of the `RuntimeError` raised by `_dispatch_gbdt`. -/
def dispatch_error_msg (gbdt_type target_type : String) : String :=
  "Not supported gbdt_type (" ++ gbdt_type ++ ") or type_of_target (" ++ target_type ++ ")."

/-- `_dispatch_gbdt(gbdt_type, target_type, custom_eval)`: exact-match lookup
in `gbdt_table`; raises when no row matches; a caller-supplied eval overrides
the table default. -/
def dispatch_gbdt (gbdt_type : String) (target_type : String)
    (custom_eval : Option EvalFn) : Except String (ModelCtor × EvalFn × String) :=
  match first_true gbdt_table
      (fun x => x.1 == target_type && x.2.1 == gbdt_type) with
  | none => .error (dispatch_error_msg gbdt_type target_type)
  | some found =>
      let model := found.2.2.1
      let eval0 := found.2.2.2.1
      let cat_param := found.2.2.2.2
      .ok (model, (match custom_eval with | some f => f | none => eval0), cat_param)

/-- A model instance as produced by `model(**model_params)`: the class that
was called and the constructor parameters it received. -/
structure ModelInstance where
  ctor : ModelCtor
  params : List (String × PyVal)
deriving DecidableEq

/-- `isinstance(model, CatBoost)`: CatBoostClassifier and CatBoostRegressor
are the CatBoost subclasses constructible in this module. -/
def isinstanceCatBoost (m : ModelInstance) : Bool :=
  match m.ctor with
  | ModelCtor.CatBoostClassifier => true
  | ModelCtor.CatBoostRegressor => true
  | _ => false

/-- `isinstance(model, LGBMModel)`: LGBMClassifier and LGBMRegressor are the
LGBMModel subclasses constructible in this module. -/
def isinstanceLGBMModel (m : ModelInstance) : Bool :=
  match m.ctor with
  | ModelCtor.LGBMClassifier => true
  | ModelCtor.LGBMRegressor => true
  | _ => false

/-- The path `os.path.join(logging_directory, 'models', 'fold{fold}')` that
`_save_model` writes to (the `models/` directory is created if absent). -/
def save_model_path (logging_directory : String) (fold : Nat) : String :=
  logging_directory ++ "/models/fold" ++ toString fold

/-- `_save_model(gbdt_type, model, logging_directory, fold)`: writes the model
to `models/fold<N>` under the logging directory; asserts that the model's
runtime type agrees with the backend tag (CatBoost for 'cat', LGBMModel
otherwise). Returns the path written on success. -/
def save_model (gbdt_type : String) (model : ModelInstance)
    (logging_directory : String) (fold : Nat) : Except String String :=
  let path := save_model_path logging_directory fold
  if gbdt_type == "cat" then
    if isinstanceCatBoost model then .ok path
    else .error "AssertionError: not isinstance(model, CatBoost)"
  else
    if isinstanceLGBMModel model then .ok path
    else .error "AssertionError: not isinstance(model, LGBMModel)"

/-- The serialization loop `for i, model in enumerate(models):
_save_model(gbdt_type, model, logging_directory, i + 1)`, starting at fold
number `fold`. Returns the paths written before any failure, and the error if
one was raised: files written in earlier folds remain (no rollback). -/
def save_model_loop (gbdt_type : String) (models : List ModelInstance)
    (logging_directory : String) (fold : Nat) : List String × Option String :=
  match models with
  | [] => ([], none)
  | m :: rest =>
      match save_model gbdt_type m logging_directory fold with
      | .error e => ([], some e)
      | .ok path =>
          let r := save_model_loop gbdt_type rest logging_directory (fold + 1)
          (path :: r.1, r.2)

/-- The automatic categorical-column detection
`[c for c in X_train.columns if X_train[c].dtype.name in ['object', 'category']]`. -/
def auto_categorical (df : DataFrame) : List String :=
  df.columns.filterMap
    (fun c => if c.dtype = "object" ∨ c.dtype = "category" then some c.name else none)

/-- The fit-parameter injection
`if cat_param_name is not None and cat_param_name not in fit_params:
fit_params[cat_param_name] = categorical_feature` (the dispatch table never
yields a `None` parameter name, so only the membership test is modelled). -/
def inject_cat_param (fit_params : List (String × PyVal)) (cat_param_name : String)
    (categorical_feature : List String) : List (String × PyVal) :=
  if (fit_params.lookup cat_param_name).isSome then fit_params
  else fit_params ++ [(cat_param_name, PyVal.cats categorical_feature)]

/-- `sum(l) / len(l)` over rationals: the mean taken by pandas `.mean()`. -/
def mean_list (l : List Rat) : Rat :=
  l.sum / l.length

/-- The importance values of one feature in a flat (feature, importance)
table. -/
def feature_values (rows : List (String × Rat)) (k : String) : List Rat :=
  rows.filterMap (fun r => if r.1 = k then some r.2 else none)

/-- `df.groupby('feature')['importance'].mean().reset_index()`: one row per
distinct feature (pandas sorts group keys ascending), holding the mean of
that feature's importance values. -/
def groupby_feature_mean (rows : List (String × Rat)) : List (String × Rat) :=
  (List.insertionSort (fun a b => a ≤ b) (rows.map Prod.fst).dedup).map
    (fun k => (k, mean_list (feature_values rows k)))

/-- The importance aggregation of `experiment_gbdt`:
`importance = pd.concat(result.importance)` then group by feature, mean,
`sort_values(by='importance', ascending=False)` (pandas's default quicksort
leaves the relative order of tied rows unspecified, so any sort by descending
importance is a faithful model). -/
def aggregate_importance (tables : List (List (String × Rat))) : List (String × Rat) :=
  List.insertionSort (fun x y => y.2 ≤ x.2) (groupby_feature_mean tables.flatten)

/-- `pd.concat` raises `ValueError: No objects to concatenate` on an empty
list of tables. -/
def aggregate_importance_checked (tables : List (List (String × Rat))) :
    Except String (List (String × Rat)) :=
  match tables with
  | [] => .error "ValueError: No objects to concatenate"
  | _ => .ok (aggregate_importance tables)

/-- An observable side effect of one `experiment_gbdt` run: calls on the
`Experiment` scope (`log`, `log_metric`, `log_numpy`, `log_dataframe`),
the importance plot, and each model file written by `_save_model`. -/
inductive Effect where
  | log (msg : String)
  | logFeatures (names : List String)
  | logCategorical (names : List String)
  | logMetric (name : String) (value : Rat)
  | plotImportance (path : String)
  | saveModel (path : String)
  | logNumpyOof (data : List Rat)
  | logNumpyTest (data : Option (List Rat))
  | logDataframe (filename : String)
deriving DecidableEq

/-- Whether an effect is a `log_metric` call. -/
def Effect.isLogMetric : Effect → Bool
  | Effect.logMetric _ _ => true
  | _ => false

/-- Whether an effect is a `log_dataframe` call (the submission file). -/
def Effect.isLogDataframe : Effect → Bool
  | Effect.logDataframe _ => true
  | _ => false

/-- Whether an effect writes non-empty test-prediction content. -/
def Effect.isTestContent : Effect → Bool
  | Effect.logNumpyTest (some _) => true
  | _ => false

/-- The result bundle of the external collaborator
`cross_validate(models, X_train, y, X_test, cv, groups, logger, eval,
fit_params)`: out-of-fold predictions, optional test predictions, per-fold
plus overall scores, and one importance table per fold. -/
structure CVResult where
  oof_prediction : List Rat
  test_prediction : Option (List Rat)
  scores : List Rat
  importance : List (List (String × Rat))
deriving DecidableEq

/-- The metric-logging loop `for i in range(cv.get_n_splits()):
exp.log_metric('Fold {}'.format(i + 1), result.scores[i])`, with `i` starting
at `i0` and `k` iterations left; `scores[i]` raises `IndexError` when out of
range. -/
def fold_metric_go (scores : List Rat) : Nat → Nat → Except String (List Effect)
  | _, 0 => .ok []
  | i, k + 1 =>
      match scores[i]? with
      | none => .error "IndexError: list index out of range"
      | some s =>
          match fold_metric_go scores (i + 1) k with
          | .error e => .error e
          | .ok rest => .ok (Effect.logMetric ("Fold " ++ toString (i + 1)) s :: rest)

/-- The per-fold metric events for `n` folds. -/
def fold_metric_events (scores : List Rat) (n : Nat) : Except String (List Effect) :=
  fold_metric_go scores 0 n

/-- `exp.log_metric('Overall', result.scores[-1])`; Python `scores[-1]`
raises `IndexError` on an empty list. -/
def overall_metric_event (scores : List Rat) : Except String Effect :=
  match scores.getLast? with
  | none => .error "IndexError: list index out of range"
  | some s => .ok (Effect.logMetric "Overall" s)

/-- The inputs of one `experiment_gbdt` call, together with the outputs of
the external collaborators for that call: `n_splits` is
`check_cv(cv, y).get_n_splits()`, `inferred_target` is
`sklearn.utils.multiclass.type_of_target(y)`, and `cv_result` is the bundle
returned by `cross_validate`. -/
structure RunArgs where
  logging_directory : String
  model_params : List (String × PyVal)
  id_column : String
  X_train : DataFrame
  y_name : String
  X_test : Option DataFrame
  eval : Option EvalFn
  gbdt_type : String
  fit_params : Option (List (String × PyVal))
  categorical_feature : Option (List String)
  submission_filename : String
  type_of_target : String
  n_splits : Nat
  inferred_target : String
  cv_result : CVResult
deriving DecidableEq

/-- The outcome of a successful `experiment_gbdt` run: the members of the
returned `GBDTResult` (the elapsed wall time is not modelled), the recorded
side effects, and the final state of the caller-visible mutable objects
(`X_train`, `X_test`, `fit_params` are mutated in place by the code). -/
structure RunResult where
  oof_prediction : List Rat
  test_prediction : Option (List Rat)
  scores : List Rat
  models : List ModelInstance
  importance : List (String × Rat)
  events : List Effect
  X_train_out : DataFrame
  X_test_out : Option DataFrame
  fit_params_out : List (String × PyVal)
  categorical_used : List String
  cat_param_name : String
  saved_paths : List String
deriving DecidableEq

/-- A default `RunResult`, used only to state closed witness facts. -/
def emptyRunResult : RunResult :=
  { oof_prediction := [], test_prediction := none, scores := [], models := [],
    importance := [], events := [], X_train_out := { columns := [], index_name := none },
    X_test_out := none, fit_params_out := [], categorical_used := [],
    cat_param_name := "", saved_paths := [] }

/-- The id-column normalization at the top of `experiment_gbdt`:
`if id_column in X_train.columns:` assert equal train/test column lists when
test data is present, then move the id column into the index of both frames
(in place). -/
def normalize_ids (id_column : String) (X_train : DataFrame)
    (X_test : Option DataFrame) : Except String (DataFrame × Option DataFrame) :=
  if id_column ∈ X_train.columnNames then
    match X_test with
    | some xt =>
        if X_train.columnNames = xt.columnNames then
          .ok (X_train.set_index id_column, some (xt.set_index id_column))
        else .error "AssertionError: list(X_train.columns) == list(X_test.columns)"
    | none => .ok (X_train.set_index id_column, none)
  else .ok (X_train, X_test)

/-- `type_of_target` resolution: `if type_of_target == 'auto': type_of_target
= multiclass.type_of_target(y)`. -/
def resolve_target_type (type_of_target inferred : String) : String :=
  if type_of_target = "auto" then inferred else type_of_target

/-- The categorical-feature list used by the run: the caller's explicit list
when given, otherwise `auto_categorical` of the (normalized) training frame. -/
def run_categorical (a : RunArgs) (xtr : DataFrame) : List String :=
  match a.categorical_feature with
  | some l => l
  | none => auto_categorical xtr

/-- `models = [model(**model_params) for _ in range(cv.get_n_splits())]`:
`n_splits` fresh, identically configured model instances. -/
def run_models (a : RunArgs) (mctor : ModelCtor) : List ModelInstance :=
  List.replicate a.n_splits { ctor := mctor, params := a.model_params }

/-- Assembles the outcome of a successful run from the intermediate values
of `experiment_gbdt`, recording the effects in execution order. -/
def mkRunResult (a : RunArgs) (xtr : DataFrame) (xte : Option DataFrame)
    (mctor : ModelCtor) (cat_param : String) (foldEvents : List Effect)
    (overallEvent : Effect) (importance : List (String × Rat))
    (saved : List String) : RunResult :=
  { oof_prediction := a.cv_result.oof_prediction,
    test_prediction := a.cv_result.test_prediction,
    scores := a.cv_result.scores,
    models := run_models a mctor,
    importance := importance,
    events :=
      [Effect.log ("GBDT: " ++ a.gbdt_type),
       Effect.log ("Experiment: " ++ a.logging_directory),
       Effect.logFeatures xtr.columnNames,
       Effect.logCategorical (run_categorical a xtr)]
      ++ foldEvents ++ [overallEvent]
      ++ [Effect.plotImportance (a.logging_directory ++ "/importance.png")]
      ++ saved.map Effect.saveModel
      ++ [Effect.logNumpyOof a.cv_result.oof_prediction,
          Effect.logNumpyTest a.cv_result.test_prediction]
      ++ (match xte with
          | some _ => [Effect.logDataframe a.submission_filename]
          | none => []),
    X_train_out := xtr,
    X_test_out := xte,
    fit_params_out := inject_cat_param (a.fit_params.getD []) cat_param (run_categorical a xtr),
    categorical_used := run_categorical a xtr,
    cat_param_name := cat_param,
    saved_paths := saved }

/-- `experiment_gbdt`: the full orchestration, as a function from its inputs
(plus the outputs of the external collaborators) to either an exception or
the run outcome; `Except.bind` propagates a raised exception past the
remaining steps, exactly as in Python. -/
def experiment_gbdt (a : RunArgs) : Except String RunResult :=
  (normalize_ids a.id_column a.X_train a.X_test).bind (fun xp =>
    if xp.1.index_name = some a.id_column then
      (dispatch_gbdt a.gbdt_type
          (resolve_target_type a.type_of_target a.inferred_target) a.eval).bind (fun trip =>
        (fold_metric_events a.cv_result.scores a.n_splits).bind (fun foldEvents =>
          (overall_metric_event a.cv_result.scores).bind (fun overallEvent =>
            (aggregate_importance_checked a.cv_result.importance).bind (fun importance =>
              match (save_model_loop a.gbdt_type (run_models a trip.1) a.logging_directory 1).2 with
              | some e => .error e
              | none =>
                  .ok (mkRunResult a xp.1 xp.2 trip.1 trip.2.2 foldEvents overallEvent importance
                    (save_model_loop a.gbdt_type (run_models a trip.1) a.logging_directory 1).1)))))
    else .error "index does not match")

/-- Modelled from the spec: the contract of the external collaborator
`cross_validate` (its code, `nyaggle/validation/cross_validate.py`, is not
part of this excerpt). The spec describes its result bundle as holding
"optional test predictions" and the module's own docstring states that
`test_prediction` is "None if X_test is None". -/
def cross_validate_test_prediction_contract (X_test : Option DataFrame)
    (cvr : CVResult) : Prop :=
  X_test = none → cvr.test_prediction = none

/-- A small concrete run used to witness the run-level theorems: two feature
columns (one of object dtype), id column already in the index, one fold. -/
def wXtrain : DataFrame :=
  { columns := [{ name := "f1", dtype := "object" }, { name := "f2", dtype := "int64" }],
    index_name := some "id" }

/-- The collaborator outputs for the witness run: one fold, so one per-fold
importance table and two scores (fold 1 and overall). -/
def wCV : CVResult :=
  { oof_prediction := [0, 1], test_prediction := none, scores := [1, 2],
    importance := [[("f1", 2), ("f2", 4)]] }

/-- The arguments of the witness run. -/
def wArgs : RunArgs :=
  { logging_directory := "out", model_params := [("n_estimators", PyVal.otherVal 0)],
    id_column := "id", X_train := wXtrain, y_name := "target", X_test := none,
    eval := none, gbdt_type := "lgbm", fit_params := some [],
    categorical_feature := none, submission_filename := "submission.csv",
    type_of_target := "binary", n_splits := 1, inferred_target := "binary",
    cv_result := wCV }

/-- The outcome of the witness run. -/
def wRun : RunResult := (experiment_gbdt wArgs).toOption.getD emptyRunResult

/-- A training frame whose id column is already its index. -/
def c9Xtrain : DataFrame :=
  { columns := [{ name := "a", dtype := "int64" }], index_name := some "id" }

/-- A test frame with a column set different from `c9Xtrain`'s. -/
def c9Xtest : DataFrame :=
  { columns := [{ name := "b", dtype := "int64" }], index_name := some "id" }

/-- A run whose train/test column sets are mismatched while the id column is
not among the training columns. -/
def c9Args : RunArgs :=
  { logging_directory := "out", model_params := [], id_column := "id",
    X_train := c9Xtrain, y_name := "target", X_test := some c9Xtest,
    eval := none, gbdt_type := "lgbm", fit_params := none,
    categorical_feature := none, submission_filename := "submission.csv",
    type_of_target := "binary", n_splits := 1, inferred_target := "binary",
    cv_result := { oof_prediction := [0], test_prediction := some [5],
                   scores := [1, 2], importance := [[("a", 1)]] } }

/-- A training frame holding its id as a regular column. -/
def c9bXtrain : DataFrame :=
  { columns := [{ name := "id", dtype := "int64" }, { name := "a", dtype := "int64" }],
    index_name := none }

/-- A test frame with the id column but a different second column. -/
def c9bXtest : DataFrame :=
  { columns := [{ name := "id", dtype := "int64" }, { name := "b", dtype := "int64" }],
    index_name := none }

/-- A run whose train/test column lists are mismatched with the id column
among the training columns. -/
def c9bArgs : RunArgs :=
  { logging_directory := "out", model_params := [], id_column := "id",
    X_train := c9bXtrain, y_name := "target", X_test := some c9bXtest,
    eval := none, gbdt_type := "lgbm", fit_params := none,
    categorical_feature := none, submission_filename := "submission.csv",
    type_of_target := "binary", n_splits := 1, inferred_target := "binary",
    cv_result := { oof_prediction := [0], test_prediction := some [5],
                   scores := [1, 2], importance := [[("a", 1)]] } }

/-- A training frame whose id column is a regular column (to be moved into
the index by the run). -/
def c10Xtrain : DataFrame :=
  { columns := [{ name := "id", dtype := "int64" }, { name := "f1", dtype := "category" }],
    index_name := none }

/-- A run that normalizes the id column in place and injects the
categorical-feature key into a caller-supplied fit_params dict. -/
def c10Args : RunArgs :=
  { logging_directory := "out", model_params := [], id_column := "id",
    X_train := c10Xtrain, y_name := "target", X_test := none,
    eval := none, gbdt_type := "lgbm", fit_params := some [("verbose", PyVal.otherVal 1)],
    categorical_feature := none, submission_filename := "submission.csv",
    type_of_target := "binary", n_splits := 1, inferred_target := "binary",
    cv_result := { oof_prediction := [0], test_prediction := none,
                   scores := [1, 2], importance := [[("f1", 3)]] } }

/-- The outcome of the id-normalizing run. -/
def c10Run : RunResult := (experiment_gbdt c10Args).toOption.getD emptyRunResult

/-- The descending-importance order on aggregated rows is total. -/
instance : IsTotal (String × Rat) (fun x y => y.2 ≤ x.2) :=
  ⟨fun a b => le_total b.2 a.2⟩

/-- The descending-importance order on aggregated rows is transitive. -/
instance : IsTrans (String × Rat) (fun x y => y.2 ≤ x.2) :=
  ⟨fun _ _ _ h1 h2 => le_trans h2 h1⟩

/-- Inversion for `Except.bind`: a successful bind means both steps
succeeded. -/
theorem except_bind_ok {α β : Type} {e : Except String α} {f : α → Except String β} {b : β}
    (h : e.bind f = Except.ok b) : ∃ a, e = Except.ok a ∧ f a = Except.ok b := by
  cases e with
  | error msg => exact absurd h (by simp [Except.bind])
  | ok a => exact ⟨a, rfl, h⟩

/-- Inversion of a successful run: every intermediate step succeeded and the
result is assembled by `mkRunResult` from the intermediate values. -/
theorem experiment_gbdt_ok_inv (a : RunArgs) (r : RunResult)
    (h : experiment_gbdt a = Except.ok r) :
    ∃ xtr xte mctor evalFn cat_param foldEvents overallEvent importance saved,
      normalize_ids a.id_column a.X_train a.X_test = Except.ok (xtr, xte) ∧
      xtr.index_name = some a.id_column ∧
      dispatch_gbdt a.gbdt_type (resolve_target_type a.type_of_target a.inferred_target) a.eval
        = Except.ok (mctor, evalFn, cat_param) ∧
      fold_metric_events a.cv_result.scores a.n_splits = Except.ok foldEvents ∧
      overall_metric_event a.cv_result.scores = Except.ok overallEvent ∧
      aggregate_importance_checked a.cv_result.importance = Except.ok importance ∧
      save_model_loop a.gbdt_type (run_models a mctor) a.logging_directory 1 = (saved, none) ∧
      r = mkRunResult a xtr xte mctor cat_param foldEvents overallEvent importance saved := by
  unfold experiment_gbdt at h
  obtain ⟨xp, h1, h⟩ := except_bind_ok h
  by_cases hidx : xp.1.index_name = some a.id_column
  · rw [if_pos hidx] at h
    obtain ⟨trip, h2, h⟩ := except_bind_ok h
    obtain ⟨foldEvents, h3, h⟩ := except_bind_ok h
    obtain ⟨overallEvent, h4, h⟩ := except_bind_ok h
    obtain ⟨importance, h5, h⟩ := except_bind_ok h
    cases ho : (save_model_loop a.gbdt_type (run_models a trip.1) a.logging_directory 1).2 with
    | some e => rw [ho] at h; exact Except.noConfusion h
    | none =>
        rw [ho] at h
        refine ⟨xp.1, xp.2, trip.1, trip.2.1, trip.2.2, foldEvents, overallEvent, importance,
          (save_model_loop a.gbdt_type (run_models a trip.1) a.logging_directory 1).1,
          h1, hidx, h2, h3, h4, h5, ?_, (Except.ok.inj h).symm⟩
        rw [← ho]
  · rw [if_neg hidx] at h
    exact Except.noConfusion h

/-- C1: for every (target-type, backend) pair, `_dispatch_gbdt` returns exactly
the triple of the fixed 4-row table — ('binary','lgbm') ->
(LGBMClassifier, roc_auc_score, 'categorical_feature'), ('continuous','lgbm') ->
(LGBMRegressor, mean_squared_error, 'categorical_feature'), ('binary','cat') ->
(CatBoostClassifier, roc_auc_score, 'cat_features'), ('continuous','cat') ->
(CatBoostRegressor, mean_squared_error, 'cat_features') — by exact match with
no fallback, and for every pair not in the table it raises the
unsupported-configuration error. -/
theorem claim_C1_dispatch_table :
    dispatch_gbdt "lgbm" "binary" none
      = Except.ok (ModelCtor.LGBMClassifier, EvalFn.roc_auc_score, "categorical_feature") ∧
    dispatch_gbdt "lgbm" "continuous" none
      = Except.ok (ModelCtor.LGBMRegressor, EvalFn.mean_squared_error, "categorical_feature") ∧
    dispatch_gbdt "cat" "binary" none
      = Except.ok (ModelCtor.CatBoostClassifier, EvalFn.roc_auc_score, "cat_features") ∧
    dispatch_gbdt "cat" "continuous" none
      = Except.ok (ModelCtor.CatBoostRegressor, EvalFn.mean_squared_error, "cat_features") ∧
    ∀ gbdt_type target_type custom_eval,
      ¬ ((target_type = "binary" ∨ target_type = "continuous") ∧
         (gbdt_type = "lgbm" ∨ gbdt_type = "cat")) →
      dispatch_gbdt gbdt_type target_type custom_eval
        = Except.error (dispatch_error_msg gbdt_type target_type) := by
  refine ⟨rfl, rfl, rfl, rfl, ?_⟩
  intro g t c h
  have h1 : ¬ (t = "binary" ∧ g = "lgbm") := fun hx => h ⟨Or.inl hx.1, Or.inl hx.2⟩
  have h2 : ¬ (t = "continuous" ∧ g = "lgbm") := fun hx => h ⟨Or.inr hx.1, Or.inl hx.2⟩
  have h3 : ¬ (t = "binary" ∧ g = "cat") := fun hx => h ⟨Or.inl hx.1, Or.inr hx.2⟩
  have h4 : ¬ (t = "continuous" ∧ g = "cat") := fun hx => h ⟨Or.inr hx.1, Or.inr hx.2⟩
  unfold dispatch_gbdt first_true gbdt_table
  rw [List.find?_cons_of_neg, List.find?_cons_of_neg, List.find?_cons_of_neg,
    List.find?_cons_of_neg]
  · rfl
  · simp only [Bool.and_eq_true, beq_iff_eq, not_and]
    exact fun ht hg => h4 ⟨ht.symm, hg.symm⟩
  · simp only [Bool.and_eq_true, beq_iff_eq, not_and]
    exact fun ht hg => h3 ⟨ht.symm, hg.symm⟩
  · simp only [Bool.and_eq_true, beq_iff_eq, not_and]
    exact fun ht hg => h2 ⟨ht.symm, hg.symm⟩
  · simp only [Bool.and_eq_true, beq_iff_eq, not_and]
    exact fun ht hg => h1 ⟨ht.symm, hg.symm⟩

/-- Witness for C1 at a concrete pair outside the table. -/
theorem claim_C1_dispatch_table_witness :
    dispatch_gbdt "xgb" "binary" none = Except.error (dispatch_error_msg "xgb" "binary") :=
  claim_C1_dispatch_table.2.2.2.2 "xgb" "binary" none (by decide)

/-- C3: for every pair in the table and every caller-supplied evaluation
function `f`, dispatching with `f` returns `f` as the evaluation function
while returning the same model constructor and the same categorical-parameter
name as dispatching with `None`. -/
theorem claim_C3_custom_eval_override (gbdt_type target_type : String) (f : EvalFn)
    (m : ModelCtor) (e : EvalFn) (p : String)
    (h : dispatch_gbdt gbdt_type target_type none = Except.ok (m, e, p)) :
    dispatch_gbdt gbdt_type target_type (some f) = Except.ok (m, f, p) := by
  unfold dispatch_gbdt at h ⊢
  cases hf : first_true gbdt_table (fun x => x.1 == target_type && x.2.1 == gbdt_type) with
  | none => rw [hf] at h; exact Except.noConfusion h
  | some found =>
      rw [hf] at h
      simp only [Except.ok.injEq, Prod.mk.injEq] at h ⊢
      exact ⟨h.1, trivial, h.2.2⟩

/-- Witness for C3 at the ('binary','lgbm') row with a custom eval. -/
theorem claim_C3_custom_eval_override_witness :
    dispatch_gbdt "lgbm" "binary" (some (EvalFn.custom 7))
      = Except.ok (ModelCtor.LGBMClassifier, EvalFn.custom 7, "categorical_feature") :=
  claim_C3_custom_eval_override "lgbm" "binary" (EvalFn.custom 7)
    ModelCtor.LGBMClassifier EvalFn.roc_auc_score "categorical_feature" (by rfl)

/-- C2: in `experiment_gbdt`, the categorical-feature parameter (under the
backend's categorical-parameter name returned by the dispatcher) is injected
into the fit arguments passed to `cross_validate` if and only if the caller's
fit_params does not already contain a key of that name; when the key is
already present, the dict — and hence the caller's value under that key — is
passed through unchanged. -/
theorem claim_C2_fit_param_injection (a : RunArgs) (r : RunResult)
    (h : experiment_gbdt a = Except.ok r) :
    ((a.fit_params.getD []).lookup r.cat_param_name = none →
      r.fit_params_out
        = (a.fit_params.getD []) ++ [(r.cat_param_name, PyVal.cats r.categorical_used)]) ∧
    (∀ v, (a.fit_params.getD []).lookup r.cat_param_name = some v →
      r.fit_params_out = a.fit_params.getD [] ∧
      r.fit_params_out.lookup r.cat_param_name = some v) := by
  obtain ⟨xtr, xte, mctor, evalFn, cat_param, fe, oe, imp, saved,
    h1, hidx, h2, h3, h4, h5, h6, hr⟩ := experiment_gbdt_ok_inv a r h
  subst hr
  simp only [mkRunResult]
  constructor
  · intro hnone
    simp [inject_cat_param, hnone]
  · intro v hv
    constructor
    · simp [inject_cat_param, hv]
    · simp [inject_cat_param, hv]

unseal Rat.mul Rat.inv Rat.add String.ltb in
/-- Witness for C2: a run with an empty caller fit_params dict gets the
categorical parameter injected. -/
theorem claim_C2_fit_param_injection_witness :
    wRun.fit_params_out
      = (wArgs.fit_params.getD [])
        ++ [(wRun.cat_param_name, PyVal.cats wRun.categorical_used)] :=
  (claim_C2_fit_param_injection wArgs wRun (by rfl)).1 (by rfl)

/-- The automatic detection keeps the original column order: its output is a
sublist of the column names. -/
theorem auto_categorical_sublist (df : DataFrame) :
    (auto_categorical df).Sublist df.columnNames := by
  unfold auto_categorical DataFrame.columnNames
  induction df.columns with
  | nil => simp
  | cons c cs ih =>
      by_cases hc : (c.dtype = "object" ∨ c.dtype = "category")
      · simpa [List.filterMap_cons, hc] using ih.cons₂ c.name
      · simpa [List.filterMap_cons, hc] using ih.cons c.name

/-- Membership in the automatic detection: exactly the names of columns whose
dtype name is 'object' or 'category'. -/
theorem auto_categorical_mem (df : DataFrame) (s : String) :
    s ∈ auto_categorical df ↔
      ∃ c, c ∈ df.columns ∧ c.name = s ∧ (c.dtype = "object" ∨ c.dtype = "category") := by
  unfold auto_categorical
  rw [List.mem_filterMap]
  constructor
  · rintro ⟨c, hc, hf⟩
    by_cases hd : (c.dtype = "object" ∨ c.dtype = "category")
    · rw [if_pos hd] at hf
      exact ⟨c, hc, Option.some.inj hf, hd⟩
    · rw [if_neg hd] at hf
      exact Option.noConfusion hf
  · rintro ⟨c, hc, hn, hd⟩
    exact ⟨c, hc, by rw [if_pos hd, hn]⟩

/-- C4: when the caller passes `categorical_feature=None`, the
categorical-feature list is computed as exactly those columns of (the
normalized) `X_train` whose dtype name is 'object' or 'category', in the
original column order and no other columns; when the caller passes an
explicit list, that list is used unchanged. -/
theorem claim_C4_categorical_detection (a : RunArgs) (r : RunResult)
    (h : experiment_gbdt a = Except.ok r) :
    (a.categorical_feature = none →
      r.categorical_used = auto_categorical r.X_train_out ∧
      (∀ s, s ∈ r.categorical_used ↔
        ∃ c, c ∈ r.X_train_out.columns ∧ c.name = s ∧
          (c.dtype = "object" ∨ c.dtype = "category")) ∧
      r.categorical_used.Sublist r.X_train_out.columnNames) ∧
    (∀ l, a.categorical_feature = some l → r.categorical_used = l) := by
  obtain ⟨xtr, xte, mctor, evalFn, cat_param, fe, oe, imp, saved,
    h1, hidx, h2, h3, h4, h5, h6, hr⟩ := experiment_gbdt_ok_inv a r h
  subst hr
  simp only [mkRunResult]
  constructor
  · intro hnone
    unfold run_categorical
    rw [hnone]
    exact ⟨rfl, fun s => auto_categorical_mem xtr s, auto_categorical_sublist xtr⟩
  · intro l hl
    unfold run_categorical
    rw [hl]

unseal Rat.mul Rat.inv Rat.add String.ltb in
/-- Witness for C4: the witness run auto-detects exactly its object-dtype
column. -/
theorem claim_C4_categorical_detection_witness :
    wRun.categorical_used = auto_categorical wRun.X_train_out :=
  ((claim_C4_categorical_detection wArgs wRun (by rfl)).1 (by rfl)).1

/-- A successful metric loop produced one `log_metric` event per fold. -/
theorem fold_metric_go_ok (scores : List Rat) :
    ∀ k i evs, fold_metric_go scores i k = Except.ok evs →
      evs.length = k ∧ ∀ e ∈ evs, e.isLogMetric = true := by
  intro k
  induction k with
  | zero =>
      intro i evs h
      have hevs : evs = [] := (Except.ok.inj h).symm
      subst hevs
      exact ⟨rfl, by simp⟩
  | succ k ih =>
      intro i evs h
      unfold fold_metric_go at h
      cases hs : scores[i]? with
      | none => rw [hs] at h; exact Except.noConfusion h
      | some s =>
          rw [hs] at h
          cases hr : fold_metric_go scores (i + 1) k with
          | error e => rw [hr] at h; exact Except.noConfusion h
          | ok rest =>
              rw [hr] at h
              have hevs := (Except.ok.inj h).symm
              subst hevs
              obtain ⟨hlen, hmem⟩ := ih (i + 1) rest hr
              refine ⟨by simp [hlen], ?_⟩
              intro e he
              rcases List.mem_cons.mp he with he1 | he2
              · subst he1; rfl
              · exact hmem e he2

/-- A successful overall-metric step logged the metric named 'Overall'. -/
theorem overall_metric_event_ok (scores : List Rat) (oe : Effect)
    (h : overall_metric_event scores = Except.ok oe) :
    ∃ s, oe = Effect.logMetric "Overall" s := by
  unfold overall_metric_event at h
  cases hl : scores.getLast? with
  | none => rw [hl] at h; exact Except.noConfusion h
  | some s => rw [hl] at h; exact ⟨s, (Except.ok.inj h).symm⟩

/-- A successful dispatch pins the backend tag and the kind of the selected
model constructor. -/
theorem dispatch_ok_backend (g t : String) (e : Option EvalFn) (mc : ModelCtor)
    (ef : EvalFn) (cp : String)
    (h : dispatch_gbdt g t e = Except.ok (mc, ef, cp)) :
    (g = "lgbm" ∧ (mc = ModelCtor.LGBMClassifier ∨ mc = ModelCtor.LGBMRegressor)) ∨
    (g = "cat" ∧ (mc = ModelCtor.CatBoostClassifier ∨ mc = ModelCtor.CatBoostRegressor)) := by
  unfold dispatch_gbdt at h
  cases hf : first_true gbdt_table (fun x => x.1 == t && x.2.1 == g) with
  | none => rw [hf] at h; exact Except.noConfusion h
  | some found =>
      rw [hf] at h
      simp only [Except.ok.injEq, Prod.mk.injEq] at h
      obtain ⟨hmc, -, -⟩ := h
      unfold first_true at hf
      have hp := List.find?_some hf
      have hm := List.mem_of_find?_eq_some hf
      simp only [Bool.and_eq_true, beq_iff_eq] at hp
      unfold gbdt_table at hm
      simp only [List.mem_cons, List.not_mem_nil, or_false] at hm
      rcases hm with h1 | h1 | h1 | h1 <;> subst h1
      · exact Or.inl ⟨hp.2.symm, Or.inl hmc.symm⟩
      · exact Or.inl ⟨hp.2.symm, Or.inr hmc.symm⟩
      · exact Or.inr ⟨hp.2.symm, Or.inl hmc.symm⟩
      · exact Or.inr ⟨hp.2.symm, Or.inr hmc.symm⟩

/-- After a successful dispatch, saving a model built from the selected
constructor under the same backend tag always succeeds. -/
theorem dispatch_save_ok (g t : String) (e : Option EvalFn) (mc : ModelCtor)
    (ef : EvalFn) (cp : String) (h : dispatch_gbdt g t e = Except.ok (mc, ef, cp))
    (params : List (String × PyVal)) (dir : String) (k : Nat) :
    save_model g { ctor := mc, params := params } dir k
      = Except.ok (save_model_path dir k) := by
  rcases dispatch_ok_backend g t e mc ef cp h with ⟨hg, hmc⟩ | ⟨hg, hmc⟩ <;> subst hg <;>
    rcases hmc with h2 | h2 <;> subst h2 <;> rfl

/-- When every model passes the type assertion, the serialization loop writes
one file per model, at consecutive fold numbers. -/
theorem save_model_loop_all_ok (g : String) (dir : String) :
    ∀ (models : List ModelInstance),
      (∀ m, m ∈ models → ∀ k, save_model g m dir k = Except.ok (save_model_path dir k)) →
      ∀ start, save_model_loop g models dir start
        = ((List.range models.length).map (fun i => save_model_path dir (start + i)), none) := by
  intro models
  induction models with
  | nil => intro _ _; rfl
  | cons m rest ih =>
      intro hall start
      unfold save_model_loop
      rw [hall m (List.mem_cons_self m rest) start]
      rw [ih (fun m hm k => hall m (List.mem_cons_of_mem _ hm) k) (start + 1)]
      simp only [List.length_cons, List.range_succ_eq_map, List.map_cons, List.map_map,
        Nat.add_zero, Prod.mk.injEq, and_true, List.cons.injEq, true_and]
      apply List.map_congr_left
      intro i _
      simp only [Function.comp_apply]
      congr 1
      omega

/-- C5: for every run with a CV splitter reporting n folds, exactly n
identically configured model instances are constructed, exactly n per-fold
model files are serialized (models/fold1 .. models/foldN), n per-fold score
metrics plus one overall score metric are logged, and the returned models
list has length n. -/
theorem claim_C5_per_fold_artifacts (a : RunArgs) (r : RunResult)
    (h : experiment_gbdt a = Except.ok r) :
    r.models.length = a.n_splits ∧
    (∀ m, m ∈ r.models → m.params = a.model_params) ∧
    (∀ m m', m ∈ r.models → m' ∈ r.models → m = m') ∧
    r.saved_paths
      = (List.range a.n_splits).map (fun i => save_model_path a.logging_directory (1 + i)) ∧
    r.saved_paths.length = a.n_splits ∧
    r.events.countP Effect.isLogMetric = a.n_splits + 1 := by
  obtain ⟨xtr, xte, mctor, evalFn, cat_param, fe, oe, imp, saved,
    h1, hidx, h2, h3, h4, h5, h6, hr⟩ := experiment_gbdt_ok_inv a r h
  subst hr
  obtain ⟨hfeLen, hfeMem⟩ := fold_metric_go_ok a.cv_result.scores a.n_splits 0 fe h3
  obtain ⟨s, hoe⟩ := overall_metric_event_ok a.cv_result.scores oe h4
  have hloop := save_model_loop_all_ok a.gbdt_type a.logging_directory (run_models a mctor)
    (fun m hm k => by
      have hmeq : m = { ctor := mctor, params := a.model_params } :=
        List.eq_of_mem_replicate hm
      rw [hmeq]
      exact dispatch_save_ok a.gbdt_type _ a.eval mctor evalFn cat_param h2 a.model_params
        a.logging_directory k) 1
  rw [h6] at hloop
  have hsaved : saved = (List.range a.n_splits).map
      (fun i => save_model_path a.logging_directory (1 + i)) := by
    have hfst := congrArg Prod.fst hloop
    simpa [run_models] using hfst
  have hfe : fe.countP Effect.isLogMetric = a.n_splits := by
    rw [List.countP_eq_length.mpr hfeMem]
    exact hfeLen
  have hmap : (saved.map Effect.saveModel).countP Effect.isLogMetric = 0 := by
    rw [List.countP_eq_zero]
    intro e he
    obtain ⟨x, -, rfl⟩ := List.mem_map.mp he
    simp [Effect.isLogMetric]
  subst hoe
  simp only [mkRunResult]
  refine ⟨by simp [run_models], ?_, ?_, hsaved, by simp [hsaved], ?_⟩
  · intro m hm
    have hmeq : m = { ctor := mctor, params := a.model_params } :=
      List.eq_of_mem_replicate hm
    rw [hmeq]
  · intro m m' hm hm'
    have hmeq : m = { ctor := mctor, params := a.model_params } :=
      List.eq_of_mem_replicate hm
    have hmeq' : m' = { ctor := mctor, params := a.model_params } :=
      List.eq_of_mem_replicate hm'
    rw [hmeq, hmeq']
  · cases xte with
    | none =>
        simp [List.countP_append, List.countP_cons, Effect.isLogMetric, hfe, hmap]
    | some xt =>
        simp [List.countP_append, List.countP_cons, Effect.isLogMetric, hfe, hmap]

unseal Rat.mul Rat.inv Rat.add String.ltb in
/-- Witness for C5: the one-fold witness run builds one model. -/
theorem claim_C5_per_fold_artifacts_witness :
    wRun.models.length = wArgs.n_splits :=
  (claim_C5_per_fold_artifacts wArgs wRun (by rfl)).1

/-- The keys of the grouped importance table are the sorted distinct feature
names. -/
theorem groupby_feature_mean_keys (rows : List (String × Rat)) :
    (groupby_feature_mean rows).map Prod.fst
      = List.insertionSort (fun a b => a ≤ b) (rows.map Prod.fst).dedup := by
  unfold groupby_feature_mean
  rw [List.map_map]
  show List.map id (List.insertionSort (fun a b => a ≤ b) (rows.map Prod.fst).dedup)
    = List.insertionSort (fun a b => a ≤ b) (rows.map Prod.fst).dedup
  rw [List.map_id]

/-- The grouped importance table has no duplicate feature names. -/
theorem groupby_feature_mean_nodup (rows : List (String × Rat)) :
    ((groupby_feature_mean rows).map Prod.fst).Nodup := by
  rw [groupby_feature_mean_keys]
  exact (List.perm_insertionSort _ _).nodup_iff.mpr (List.nodup_dedup _)

/-- The grouped table's feature names are exactly the features occurring in
the flat table. -/
theorem groupby_feature_mean_mem_keys (rows : List (String × Rat)) (k : String) :
    k ∈ (groupby_feature_mean rows).map Prod.fst ↔ k ∈ rows.map Prod.fst := by
  rw [groupby_feature_mean_keys, List.mem_insertionSort]
  exact List.mem_dedup

/-- Every row of the grouped table holds the mean of its feature's importance
values. -/
theorem groupby_feature_mean_val (rows : List (String × Rat)) (p : String × Rat)
    (hp : p ∈ groupby_feature_mean rows) :
    p.2 = mean_list (feature_values rows p.1) := by
  unfold groupby_feature_mean at hp
  obtain ⟨k, -, rfl⟩ := List.mem_map.mp hp
  rfl

/-- The final value sort only permutes the grouped rows. -/
theorem aggregate_importance_perm (tables : List (List (String × Rat))) :
    (aggregate_importance tables).Perm (groupby_feature_mean tables.flatten) :=
  List.perm_insertionSort _ _

/-- The aggregated table is sorted by descending mean importance. -/
theorem aggregate_importance_sorted (tables : List (List (String × Rat))) :
    (aggregate_importance tables).Pairwise (fun x y => y.2 ≤ x.2) :=
  List.sorted_insertionSort _ _

/-- C6: the aggregated importance table returned by `experiment_gbdt` is the
concatenation of the per-fold importance tables grouped by feature name with
the mean taken per feature, so it has exactly one row per distinct feature
name (no duplicate feature rows) and its rows are sorted by descending mean
importance. -/
theorem claim_C6_importance_aggregation (a : RunArgs) (r : RunResult)
    (h : experiment_gbdt a = Except.ok r) :
    r.importance = aggregate_importance a.cv_result.importance ∧
    (r.importance.map Prod.fst).Nodup ∧
    r.importance.Pairwise (fun x y => y.2 ≤ x.2) ∧
    (∀ p ∈ r.importance,
      p.2 = mean_list (feature_values a.cv_result.importance.flatten p.1)) ∧
    (∀ k, k ∈ r.importance.map Prod.fst ↔
      k ∈ (a.cv_result.importance.flatten).map Prod.fst) := by
  obtain ⟨xtr, xte, mctor, evalFn, cat_param, fe, oe, imp, saved,
    h1, hidx, h2, h3, h4, h5, h6, hr⟩ := experiment_gbdt_ok_inv a r h
  subst hr
  have himp : imp = aggregate_importance a.cv_result.importance := by
    unfold aggregate_importance_checked at h5
    cases hti : a.cv_result.importance with
    | nil => rw [hti] at h5; exact Except.noConfusion h5
    | cons t ts => rw [hti] at h5; exact (Except.ok.inj h5).symm
  simp only [mkRunResult]
  subst himp
  refine ⟨rfl, ?_, aggregate_importance_sorted _, ?_, ?_⟩
  · exact ((aggregate_importance_perm _).map Prod.fst).nodup_iff.mpr
      (groupby_feature_mean_nodup _)
  · intro p hp
    exact groupby_feature_mean_val _ p ((aggregate_importance_perm _).mem_iff.mp hp)
  · intro k
    rw [List.Perm.mem_iff ((aggregate_importance_perm _).map Prod.fst)]
    exact groupby_feature_mean_mem_keys _ k

unseal Rat.mul Rat.inv Rat.add String.ltb in
/-- Witness for C6: the witness run's importance table is the aggregation of
its per-fold tables. -/
theorem claim_C6_importance_aggregation_witness :
    wRun.importance = aggregate_importance wCV.importance :=
  (claim_C6_importance_aggregation wArgs wRun (by rfl)).1

/-- A fold metric event is not a submission write. -/
theorem isLogMetric_not_isLogDataframe (e : Effect) (h : e.isLogMetric = true) :
    e.isLogDataframe = false := by
  cases e <;> simp_all [Effect.isLogMetric, Effect.isLogDataframe]

/-- A fold metric event carries no test-prediction content. -/
theorem isLogMetric_not_isTestContent (e : Effect) (h : e.isLogMetric = true) :
    e.isTestContent = false := by
  cases e <;> simp_all [Effect.isLogMetric, Effect.isTestContent]

/-- With no test data, the normalization leaves the test frame absent. -/
theorem normalize_ids_none_test (id_column : String) (X_train : DataFrame)
    (xtr : DataFrame) (xte : Option DataFrame)
    (h : normalize_ids id_column X_train none = Except.ok (xtr, xte)) :
    xte = none := by
  unfold normalize_ids at h
  by_cases hm : id_column ∈ X_train.columnNames
  · rw [if_pos hm] at h
    exact (congrArg Prod.snd (Except.ok.inj h)).symm
  · rw [if_neg hm] at h
    exact (congrArg Prod.snd (Except.ok.inj h)).symm

/-- C7: for every run with `X_test=None`, no submission file is written to
the logging directory, and the test-prediction output is empty/absent: the
returned `test_prediction` member is `None` and the logged test-prediction
payload carries no content. (The `test_prediction` member comes from the
external `cross_validate`, taken here under its documented contract.) -/
theorem claim_C7_no_test_output (a : RunArgs) (r : RunResult)
    (h : experiment_gbdt a = Except.ok r) (hX : a.X_test = none)
    (hc : cross_validate_test_prediction_contract a.X_test a.cv_result) :
    r.test_prediction = none ∧
    (∀ e ∈ r.events, e.isLogDataframe = false) ∧
    Effect.logNumpyTest none ∈ r.events ∧
    r.events.countP Effect.isTestContent = 0 := by
  obtain ⟨xtr, xte, mctor, evalFn, cat_param, fe, oe, imp, saved,
    h1, hidx, h2, h3, h4, h5, h6, hr⟩ := experiment_gbdt_ok_inv a r h
  subst hr
  have htp : a.cv_result.test_prediction = none := hc hX
  have hxte : xte = none := by
    rw [hX] at h1
    exact normalize_ids_none_test a.id_column a.X_train xtr xte h1
  subst hxte
  obtain ⟨hfeLen, hfeMem⟩ := fold_metric_go_ok a.cv_result.scores a.n_splits 0 fe h3
  obtain ⟨s, hoe⟩ := overall_metric_event_ok a.cv_result.scores oe h4
  subst hoe
  have hfeD : fe.countP Effect.isLogDataframe = 0 :=
    List.countP_eq_zero.mpr (fun e he => by
      simp [isLogMetric_not_isLogDataframe e (hfeMem e he)])
  have hfeT : fe.countP Effect.isTestContent = 0 :=
    List.countP_eq_zero.mpr (fun e he => by
      simp [isLogMetric_not_isTestContent e (hfeMem e he)])
  have hmapD : (saved.map Effect.saveModel).countP Effect.isLogDataframe = 0 :=
    List.countP_eq_zero.mpr (fun e he => by
      obtain ⟨x, -, rfl⟩ := List.mem_map.mp he
      simp [Effect.isLogDataframe])
  have hmapT : (saved.map Effect.saveModel).countP Effect.isTestContent = 0 :=
    List.countP_eq_zero.mpr (fun e he => by
      obtain ⟨x, -, rfl⟩ := List.mem_map.mp he
      simp [Effect.isTestContent])
  simp only [mkRunResult]
  refine ⟨htp, ?_, ?_, ?_⟩
  · intro e he
    have h0 : ¬ (e.isLogDataframe = true) := by
      refine List.countP_eq_zero.mp ?_ e he
      simp [List.countP_append, List.countP_cons, Effect.isLogDataframe, hfeD, hmapD]
    simpa using h0
  · rw [htp]
    simp
  · rw [htp]
    simp [List.countP_append, List.countP_cons, Effect.isTestContent, hfeT, hmapT]

unseal Rat.mul Rat.inv Rat.add String.ltb in
/-- Witness for C7: the witness run has no test data and produces no
submission write. -/
theorem claim_C7_no_test_output_witness :
    wRun.test_prediction = none :=
  (claim_C7_no_test_output wArgs wRun (by rfl) (by rfl) (fun _ => by rfl)).1

/-- `_save_model` succeeds exactly when the model's runtime type matches the
backend tag (CatBoost for 'cat', LGBMModel otherwise). -/
theorem save_model_check (g : String) (m : ModelInstance) (dir : String) (k : Nat) :
    ((if g = "cat" then isinstanceCatBoost m else isinstanceLGBMModel m) = true →
      save_model g m dir k = Except.ok (save_model_path dir k)) ∧
    ((if g = "cat" then isinstanceCatBoost m else isinstanceLGBMModel m) = false →
      ∃ e, save_model g m dir k = Except.error e) := by
  by_cases hg : g = "cat"
  · subst hg
    rw [if_pos rfl]
    constructor
    · intro hm
      simp [save_model, hm]
    · intro hm
      exact ⟨"AssertionError: not isinstance(model, CatBoost)", by simp [save_model, hm]⟩
  · rw [if_neg hg]
    have hgb : (g == "cat") = false := by
      simp [hg]
    constructor
    · intro hm
      simp [save_model, hm, hgb]
    · intro hm
      exact ⟨"AssertionError: not isinstance(model, LGBMModel)", by simp [save_model, hm, hgb]⟩

/-- When every model of a prefix passes the type assertion and the next one
fails it, the serialization loop stops at the failure: exactly the prefix's
files are written, and the error escapes. -/
theorem save_model_loop_prefix_fail (g dir : String) :
    ∀ (pre : List ModelInstance) (bad : ModelInstance) (rest : List ModelInstance)
      (start : Nat),
      (∀ m ∈ pre, ∀ k, save_model g m dir k = Except.ok (save_model_path dir k)) →
      (∀ k, ∃ e, save_model g bad dir k = Except.error e) →
      ∃ e, save_model_loop g (pre ++ bad :: rest) dir start
        = ((List.range pre.length).map (fun i => save_model_path dir (start + i)), some e) := by
  intro pre
  induction pre with
  | nil =>
      intro bad rest start _ hbad
      obtain ⟨e, he⟩ := hbad start
      refine ⟨e, ?_⟩
      rw [List.nil_append]
      unfold save_model_loop
      rw [he]
      simp
  | cons m pre ih =>
      intro bad rest start hpre hbad
      obtain ⟨e, hih⟩ := ih bad rest (start + 1)
        (fun m hm k => hpre m (List.mem_cons_of_mem _ hm) k) hbad
      refine ⟨e, ?_⟩
      rw [List.cons_append]
      unfold save_model_loop
      rw [hpre m (List.mem_cons_self m pre) start, hih]
      simp only [List.length_cons, List.range_succ_eq_map, List.map_cons, List.map_map,
        Nat.add_zero, Prod.mk.injEq, and_true, List.cons.injEq, true_and]
      apply List.map_congr_left
      intro i _
      simp only [Function.comp_apply]
      congr 1
      omega

/-- C8: `_save_model`, given a backend tag, a model, an output directory and
a fold number, writes the model to a file named fold<N> under a models/
subdirectory, and fails with an assertion error whenever the model's runtime
type disagrees with the backend tag (CatBoost required for 'cat', LGBMModel
otherwise); on such a failure during the per-fold serialization loop, the
models serialized in earlier folds remain on disk with no rollback. -/
theorem claim_C8_save_model :
    (∀ (g : String) (m : ModelInstance) (dir : String) (k : Nat),
      ((if g = "cat" then isinstanceCatBoost m else isinstanceLGBMModel m) = true →
        save_model g m dir k = Except.ok (save_model_path dir k)) ∧
      ((if g = "cat" then isinstanceCatBoost m else isinstanceLGBMModel m) = false →
        ∃ e, save_model g m dir k = Except.error e)) ∧
    (∀ (g dir : String) (pre : List ModelInstance) (bad : ModelInstance)
      (rest : List ModelInstance),
      (∀ m ∈ pre, (if g = "cat" then isinstanceCatBoost m else isinstanceLGBMModel m) = true) →
      (if g = "cat" then isinstanceCatBoost bad else isinstanceLGBMModel bad) = false →
      ∃ e, save_model_loop g (pre ++ bad :: rest) dir 1
        = ((List.range pre.length).map (fun i => save_model_path dir (1 + i)), some e)) := by
  refine ⟨save_model_check, ?_⟩
  intro g dir pre bad rest hpre hbad
  exact save_model_loop_prefix_fail g dir pre bad rest 1
    (fun m hm k => (save_model_check g m dir k).1 (hpre m hm))
    (fun k => (save_model_check g bad dir k).2 hbad)

/-- Witness for C8: a CatBoost model saves under tag 'cat'; an LGBM model in
the next fold fails the assertion, and the first fold's file remains. -/
theorem claim_C8_save_model_witness :
    ∃ e, save_model_loop "cat"
        ([{ ctor := ModelCtor.CatBoostClassifier, params := [] }]
          ++ { ctor := ModelCtor.LGBMClassifier, params := [] } :: []) "out" 1
      = ((List.range 1).map (fun i => save_model_path "out" (1 + i)), some e) :=
  claim_C8_save_model.2 "cat" "out"
    [{ ctor := ModelCtor.CatBoostClassifier, params := [] }]
    { ctor := ModelCtor.LGBMClassifier, params := [] } [] (by decide) (by decide)

unseal Rat.mul Rat.inv Rat.add String.ltb in
/-- Counterexample for C9 as stated: `c9Args` supplies test data whose column
set differs from the training frame's, yet the run succeeds: the column
assertion is only reached when the id column is among the training columns,
and here the id is already in the index. -/
theorem claim_C9_counterexample :
    c9Args.X_test = some c9Xtest ∧
    c9Args.X_train.columnNames ≠ c9Xtest.columnNames ∧
    (experiment_gbdt c9Args).toOption.isSome = true :=
  ⟨rfl, by decide, by decide⟩

/-- C9 (amended): when X_test is supplied, the id column is among X_train's
columns, and the train/test column lists differ, `experiment_gbdt` fails hard
with the column assertion before any training starts (when the id column is
not among X_train's columns that check is skipped); and if after id-column
normalization the index name of X_train does not equal id_column, it fails
hard before any training starts. -/
theorem claim_C9_precondition_failures (a : RunArgs) :
    (∀ xt, a.X_test = some xt → a.id_column ∈ a.X_train.columnNames →
      a.X_train.columnNames ≠ xt.columnNames →
      experiment_gbdt a
        = Except.error "AssertionError: list(X_train.columns) == list(X_test.columns)") ∧
    ((if a.id_column ∈ a.X_train.columnNames then a.X_train.set_index a.id_column
        else a.X_train).index_name ≠ some a.id_column →
      ∃ e, experiment_gbdt a = Except.error e) := by
  constructor
  · intro xt hxt hmem hneq
    unfold experiment_gbdt normalize_ids
    simp only [hxt]
    rw [if_pos hmem, if_neg hneq]
    rfl
  · intro hbad
    by_cases hmem : a.id_column ∈ a.X_train.columnNames
    · rw [if_pos hmem] at hbad
      exact absurd rfl hbad
    · rw [if_neg hmem] at hbad
      refine ⟨"index does not match", ?_⟩
      unfold experiment_gbdt normalize_ids
      rw [if_neg hmem]
      simp only [Except.bind]
      rw [if_neg hbad]

/-- Witness for the amended C9 at a concrete mismatched pair of frames with
the id among the training columns. -/
theorem claim_C9_precondition_failures_witness :
    experiment_gbdt c9bArgs
      = Except.error "AssertionError: list(X_train.columns) == list(X_test.columns)" :=
  (claim_C9_precondition_failures c9bArgs).1 c9bXtest (by rfl) (by decide) (by decide)

/-- When the id column is among the training columns, normalization moves it
into the index of the training frame (and of the test frame when present). -/
theorem normalize_ids_mem (id_column : String) (X_train : DataFrame)
    (X_test : Option DataFrame) (xtr : DataFrame) (xte : Option DataFrame)
    (hmem : id_column ∈ X_train.columnNames)
    (h : normalize_ids id_column X_train X_test = Except.ok (xtr, xte)) :
    xtr = X_train.set_index id_column ∧
    (∀ xt, X_test = some xt → xte = some (xt.set_index id_column)) := by
  unfold normalize_ids at h
  rw [if_pos hmem] at h
  cases X_test with
  | none =>
      replace h : Except.ok (X_train.set_index id_column, (none : Option DataFrame))
          = Except.ok (xtr, xte) := h
      have hp := Except.ok.inj h
      exact ⟨(congrArg Prod.fst hp).symm, fun xt hxt => Option.noConfusion hxt⟩
  | some xt0 =>
      replace h : (if X_train.columnNames = xt0.columnNames then
          Except.ok (X_train.set_index id_column, some (xt0.set_index id_column))
        else Except.error "AssertionError: list(X_train.columns) == list(X_test.columns)")
          = Except.ok (xtr, xte) := h
      by_cases hcols : X_train.columnNames = xt0.columnNames
      · rw [if_pos hcols] at h
        have hp := Except.ok.inj h
        refine ⟨(congrArg Prod.fst hp).symm, ?_⟩
        intro xt hxt
        cases Option.some.inj hxt
        exact (congrArg Prod.snd hp).symm
      · rw [if_neg hcols] at h
        exact Except.noConfusion h

/-- Moving a present column into the index changes the frame: the column is
gone from the columns afterwards. -/
theorem set_index_ne (df : DataFrame) (col : String)
    (hmem : col ∈ df.columnNames) : df.set_index col ≠ df := by
  intro heq
  have hmem2 : col ∈ (df.set_index col).columnNames := by rw [heq]; exact hmem
  unfold DataFrame.set_index DataFrame.columnNames at hmem2
  simp only [List.mem_map] at hmem2
  obtain ⟨c, hc, hname⟩ := hmem2
  have hpred := (List.mem_filter.mp hc).2
  simp only [decide_eq_true_eq] at hpred
  exact hpred hname

/-- C10: `experiment_gbdt` mutates its caller-supplied arguments in place:
when id_column is a column of X_train, the caller's X_train (and X_test when
supplied) have that column moved into the index, so the dataframes seen by
the caller after the call differ from the ones passed in; and when a
fit_params dict is supplied without the backend's categorical-parameter key,
that same dict gains the key, so the caller's fit_params is changed after
the call. -/
theorem claim_C10_in_place_mutation (a : RunArgs) (r : RunResult)
    (h : experiment_gbdt a = Except.ok r) :
    (a.id_column ∈ a.X_train.columnNames →
      r.X_train_out = a.X_train.set_index a.id_column ∧
      r.X_train_out ≠ a.X_train ∧
      (∀ xt, a.X_test = some xt → r.X_test_out = some (xt.set_index a.id_column))) ∧
    (∀ fp, a.fit_params = some fp → fp.lookup r.cat_param_name = none →
      r.fit_params_out = fp ++ [(r.cat_param_name, PyVal.cats r.categorical_used)] ∧
      r.fit_params_out ≠ fp) := by
  obtain ⟨xtr, xte, mctor, evalFn, cat_param, fe, oe, imp, saved,
    h1, hidx, h2, h3, h4, h5, h6, hr⟩ := experiment_gbdt_ok_inv a r h
  subst hr
  simp only [mkRunResult]
  constructor
  · intro hmem
    obtain ⟨hxtr, hxte⟩ := normalize_ids_mem a.id_column a.X_train a.X_test xtr xte hmem h1
    subst hxtr
    exact ⟨rfl, set_index_ne a.X_train a.id_column hmem, hxte⟩
  · intro fp hfp hnone
    rw [hfp]
    simp only [Option.getD_some]
    have hinj : inject_cat_param fp cat_param (run_categorical a xtr)
        = fp ++ [(cat_param, PyVal.cats (run_categorical a xtr))] := by
      unfold inject_cat_param
      rw [hnone]
      rfl
    refine ⟨hinj, ?_⟩
    rw [hinj]
    intro heq
    have hlen := congrArg List.length heq
    simp at hlen

unseal Rat.mul Rat.inv Rat.add String.ltb in
/-- Witness for C10: the id-normalizing run moves the id column into the
index and appends the categorical key to the caller's fit_params dict. -/
theorem claim_C10_in_place_mutation_witness :
    c10Run.X_train_out = c10Args.X_train.set_index c10Args.id_column ∧
    c10Run.X_train_out ≠ c10Args.X_train :=
  ⟨((claim_C10_in_place_mutation c10Args c10Run (by rfl)).1 (by decide)).1,
   ((claim_C10_in_place_mutation c10Args c10Run (by rfl)).1 (by decide)).2.1⟩
